import Mathlib

/-!
# Verification of the R-102 design-and-quotation engine

Shallow embedding of `src/r102_engine.py` (morpheomax/r102_calculator).

Modelling conventions:
* Python `float` values are modelled as exact rationals (`ℚ`); all numeric
  literals of the source (`0.239`, `0.644`, `0.36`, `0.6`, `3.0`, `1270`,
  `2540`, tax rates, prices) are exactly representable, and every concrete
  scenario below keeps the float and rational computations in agreement.
* Python `int` is modelled as `ℤ`.
* Python dictionaries that are built incrementally (`nozzle_counts`, the
  merged BOM dictionary) are modelled as association lists in insertion
  order, which is exactly the iteration order of a Python `dict`.
* `raise ValueError(...)` is modelled with `Except String`; values
  interpolated into the message by an f-string are kept only when they are
  strings (the numeric interpolations are dropped from the message text).
* Mutation of the `bom` list in `add_bom_item` is modelled by returning the
  updated list.
-/

namespace R102

/-- Decidable equality for `Except`, needed to evaluate the embedded pipeline
on concrete inputs. -/
instance {ε α : Type} [DecidableEq ε] [DecidableEq α] : DecidableEq (Except ε α) :=
  fun x y =>
    match x, y with
    | .error a, .error b =>
      if h : a = b then isTrue (by rw [h]) else isFalse (by simp [h])
    | .ok a, .ok b =>
      if h : a = b then isTrue (by rw [h]) else isFalse (by simp [h])
    | .error _, .ok _ => isFalse (by simp)
    | .ok _, .error _ => isFalse (by simp)

/-- Source `class ApplianceType(str, Enum)` (r102_engine.py lines 11-15). -/
inductive ApplianceType where
  | FRYER
  | GRIDDLE
  | RANGE_2B
  | RANGE_4B
deriving DecidableEq

/-- Source `class HoodFilterType(str, Enum)` (lines 18-21). -/
inductive HoodFilterType where
  | SIMPLE
  | DOUBLE
  | V_BANK
deriving DecidableEq

/-- Source `class DesignMode(str, Enum)` (lines 24-26). -/
inductive DesignMode where
  | APPLIANCE_SPECIFIC
  | OVERLAPPING
deriving DecidableEq

/-- Source `@dataclass Appliance` (lines 29-38). -/
structure Appliance where
  tipo : ApplianceType
  nombre : String
  ancho_mm : ℚ
  fondo_mm : ℚ
  altura_superficie_mm : ℚ
  altura_boquilla_sobre_superficie_mm : ℚ
  pos_inicio_mm : ℚ
  num_vats : ℤ
deriving DecidableEq

/-- Source `@dataclass Hood` (lines 41-47). -/
structure Hood where
  largo_mm : ℚ
  fondo_mm : ℚ
  altura_suelo_mm : ℚ
  filtro : HoodFilterType
  num_ductos : ℤ
deriving DecidableEq

/-- Source `@dataclass Duct` (lines 50-53). -/
structure Duct where
  perimetro_mm : ℚ
  cantidad : ℤ
deriving DecidableEq

/-- Source `@dataclass Part` (lines 56-61). -/
structure Part where
  code : String
  nombre : String
  unit_price : ℚ
  unidad : String
deriving DecidableEq

/-- Source `@dataclass BOMItem` (lines 64-67). -/
structure BOMItem where
  part : Part
  quantity : ℤ
deriving DecidableEq

/-- Source `@dataclass QuoteResult` (lines 70-76). -/
structure QuoteResult where
  bom : List BOMItem
  subtotal : ℚ
  iva_rate : ℚ
  iva_amount : ℚ
  total : ℚ
deriving DecidableEq

/-- Source `PART_CATALOG` (lines 83-109), as the lookup function `dict.get`:
`PART_CATALOG code` is `some part` for the thirteen catalogued codes and
`none` otherwise. -/
def PART_CATALOG (code : String) : Option Part :=
  if code = "79694" then some ⟨"79694", "ANSULEX 1,5 gal", 250000, "u"⟩
  else if code = "79372" then some ⟨"79372", "ANSULEX 3,0 gal", 420000, "u"⟩
  else if code = "429864" then some ⟨"429864", "Cilindro 1,5 gal R-102", 180000, "u"⟩
  else if code = "429862" then some ⟨"429862", "Cilindro 3,0 gal R-102", 210000, "u"⟩
  else if code = "423429" then some ⟨"423429", "Cartucho N2 LT-20-R", 90000, "u"⟩
  else if code = "423435" then some ⟨"423435", "Cartucho N2 LT-30-R", 110000, "u"⟩
  else if code = "423493" then some ⟨"423493", "Cartucho N2 doble cilindro", 130000, "u"⟩
  else if code = "439841" then some ⟨"439841", "Boquilla 3N (freidora)", 65000, "u"⟩
  else if code = "439845" then some ⟨"439845", "Boquilla 290 (equipo de superficie)", 55000, "u"⟩
  else if code = "439838" then some ⟨"439838", "Boquilla 1N (pleno / campana)", 50000, "u"⟩
  else if code = "439839" then some ⟨"439839", "Boquilla 1W (conducto pequeño)", 50000, "u"⟩
  else if code = "439840" then some ⟨"439840", "Boquilla 2W (conducto grande)", 55000, "u"⟩
  else if code = "KEXT-6L" then some ⟨"KEXT-6L", "Extintor Clase K 6 Lts", 180000, "u"⟩
  else if code = "SERV-MONT-R102" then some ⟨"SERV-MONT-R102", "Servicio montaje sistema R-102", 350000, "servicio"⟩
  else none

/-- Source `NOZZLE_FLOW_NUMBER` (lines 112-118), as the lookup function
`dict.get`. -/
def NOZZLE_FLOW_NUMBER (code : String) : Option ℚ :=
  if code = "439839" then some 1
  else if code = "439838" then some 1
  else if code = "439840" then some 2
  else if code = "439845" then some 2
  else if code = "439841" then some 3
  else none

/-- The scan-and-accumulate loop of `add_bom_item` (lines 134-139): walk the
BOM; on the first item whose part code matches, add `qty` to its quantity and
stop; otherwise append a fresh `BOMItem` at the end. -/
def bom_accumulate (part_code : String) (part : Part) (qty : ℤ) :
    List BOMItem → List BOMItem
  | [] => [⟨part, qty⟩]
  | item :: rest =>
    if item.part.code = part_code then ⟨item.part, item.quantity + qty⟩ :: rest
    else item :: bom_accumulate part_code part qty rest

/-- Error message of `add_bom_item` (line 132); the f-string interpolates the
part code, which we keep. -/
def unknown_part_error (part_code : String) : String :=
  "Código de parte no encontrado en catálogo: " ++ part_code

/-- Source `add_bom_item` (lines 125-139): no-op for `qty <= 0`, fatal error for an
unknown part code, otherwise merge-on-insert into the BOM. -/
def add_bom_item (bom : List BOMItem) (part_code : String) (qty : ℤ) :
    Except String (List BOMItem) :=
  if qty ≤ 0 then .ok bom
  else
    match PART_CATALOG part_code with
    | none => .error (unknown_part_error part_code)
    | some part => .ok (bom_accumulate part_code part qty bom)

/-- One step of the `merge_boms` loop body (lines 146-151): Python updates the
entry `merged[code]` in place when the code is present (keeping the first-seen
`Part` instance) and otherwise inserts a fresh `BOMItem` at the end of the
insertion-ordered dictionary. -/
def merge_bom_item (merged : List BOMItem) (item : BOMItem) : List BOMItem :=
  match merged with
  | [] => [⟨item.part, item.quantity⟩]
  | entry :: rest =>
    if entry.part.code = item.part.code then
      ⟨entry.part, entry.quantity + item.quantity⟩ :: rest
    else entry :: merge_bom_item rest item

/-- Source `merge_boms` (lines 142-152): fold every item of every BOM, in order,
into one insertion-ordered merged collection. -/
def merge_boms (boms : List (List BOMItem)) : List BOMItem :=
  boms.foldl (fun acc bom => bom.foldl merge_bom_item acc) []

/-- Source `design_fryer_nozzles` (lines 159-177): nozzle 3N (`"439841"`), total area
`width × depth × num_vats` in m², one nozzle per started 0.239 m², doubled
when the longer side exceeds 0.644 m. -/
def design_fryer_nozzles (app : Appliance) : List (String × ℤ) :=
  let x : ℚ := app.ancho_mm / 1000
  let y : ℚ := app.fondo_mm / 1000
  let area : ℚ := x * y * ((max 1 app.num_vats : ℤ) : ℚ)
  let max_area_3n : ℚ := 239 / 1000
  let max_lado_3n : ℚ := 644 / 1000
  let lado_mas_largo : ℚ := max x y
  let base_nozzles : ℤ := ⌈area / max_area_3n⌉
  let final_nozzles : ℤ :=
    if lado_mas_largo > max_lado_3n then base_nozzles * 2 else base_nozzles
  [("439841", final_nozzles)]

/-- Source `design_griddle_nozzles` (lines 180-191): nozzle 290 (`"439845"`), one per
started 0.36 m² of plancha. -/
def design_griddle_nozzles (app : Appliance) : List (String × ℤ) :=
  let x : ℚ := app.ancho_mm / 1000
  let y : ℚ := app.fondo_mm / 1000
  let area : ℚ := x * y
  let max_area : ℚ := 36 / 100
  let base_nozzles : ℤ := ⌈area / max_area⌉
  [("439845", base_nozzles)]

/-- Source `design_range_nozzles` (lines 194-204): fixed table, nozzle 290; the final
`return {}` branch of the source is kept. -/
def design_range_nozzles (app : Appliance) : List (String × ℤ) :=
  match app.tipo with
  | .RANGE_2B => [("439845", 1)]
  | .RANGE_4B => [("439845", 2)]
  | _ => []

/-- Source `@dataclass CylinderConfig` (lines 211-215). -/
structure CylinderConfig where
  num_cylinders_15 : ℤ
  num_cylinders_30 : ℤ
  cartridge_code : String
deriving DecidableEq

/-- Error message of `select_cylinders_and_cartridge` (line 238); the
f-string interpolation of the offending flow number is dropped. -/
def cylinder_range_error : String :=
  "Número de caudal fuera de rango para esta versión"

/-- Source `select_cylinders_and_cartridge` (lines 218-238): the fixed range table
`1 ≤ f ≤ 5`, `6 ≤ f ≤ 11`, `11 < f ≤ 16`, `16 < f ≤ 22`, else a fatal range
error. -/
def select_cylinders_and_cartridge (total_flow_number : ℚ) :
    Except String CylinderConfig :=
  if 1 ≤ total_flow_number ∧ total_flow_number ≤ 5 then
    .ok ⟨1, 0, "423429"⟩
  else if 6 ≤ total_flow_number ∧ total_flow_number ≤ 11 then
    .ok ⟨0, 1, "423435"⟩
  else if 11 < total_flow_number ∧ total_flow_number ≤ 16 then
    .ok ⟨1, 1, "423493"⟩
  else if 16 < total_flow_number ∧ total_flow_number ≤ 22 then
    .ok ⟨0, 2, "423493"⟩
  else .error cylinder_range_error

/-- Source `@dataclass DesignInput` (lines 245-254). -/
structure DesignInput where
  hood : Hood
  duct : Duct
  appliances : List Appliance
  incluir_servicio_montaje : Bool
  incluir_extintor_k : Bool
  cantidad_extintores_k : ℤ
  design_mode : DesignMode
  nombre_area : String
deriving DecidableEq

/-- Source `@dataclass DesignOutput` (lines 257-264). -/
structure DesignOutput where
  quote : QuoteResult
  total_flow_number : ℚ
  nozzle_breakdown : List (String × ℤ)
  cylinder_config : CylinderConfig
  warnings : List String
  nombre_area : String
deriving DecidableEq

/-- Source update `nozzle_counts[code] = nozzle_counts.get(code, 0) + qty` on the
insertion-ordered dictionary `nozzle_counts`. -/
def nozzle_counts_add : List (String × ℤ) → String → ℤ → List (String × ℤ)
  | [], code, qty => [(code, qty)]
  | (c, q) :: rest, code, qty =>
    if c = code then (c, q + qty) :: rest
    else (c, q) :: nozzle_counts_add rest code qty

/-- The inner loop of step 2 (lines 315-316): accumulate one rule's
`code → qty` result into `nozzle_counts`. -/
def accumulate_nozzles (counts : List (String × ℤ)) (noz : List (String × ℤ)) :
    List (String × ℤ) :=
  noz.foldl (fun c p => nozzle_counts_add c p.1 p.2) counts

/-- The per-appliance dispatch of step 2 (lines 306-313). -/
def appliance_nozzles (app : Appliance) : List (String × ℤ) :=
  match app.tipo with
  | .FRYER => design_fryer_nozzles app
  | .GRIDDLE => design_griddle_nozzles app
  | .RANGE_2B => design_range_nozzles app
  | .RANGE_4B => design_range_nozzles app

/-- Step 2 of `design_r102_system` (lines 303-322): appliance-zone nozzles,
either per appliance (appliance-specific mode) or one 290 surface nozzle per
started 0.6 m of hood length (overlapping mode). -/
def appliance_zone_nozzles (design_input : DesignInput) : List (String × ℤ) :=
  match design_input.design_mode with
  | .APPLIANCE_SPECIFIC =>
    design_input.appliances.foldl
      (fun counts app => accumulate_nozzles counts (appliance_nozzles app)) []
  | .OVERLAPPING =>
    let hood_length_m : ℚ := design_input.hood.largo_mm / 1000
    let paso : ℚ := 6 / 10
    let num_surface_nozzles : ℤ := max 1 ⌈hood_length_m / paso⌉
    nozzle_counts_add [] "439845" num_surface_nozzles

/-- Error message of step 3 (line 332), an exact copy of the source string. -/
def duct_range_error : String :=
  "Perímetro de ducto fuera de rango para esta versión simplificada"

/-- Step 3 of `design_r102_system` (lines 324-332): duct nozzles, skipped for
non-positive perimeter or count, 1W (`"439839"`) up to 1270 mm, 2W
(`"439840"`) up to 2540 mm, fatal range error beyond. -/
def duct_nozzle_step (duct : Duct) (counts : List (String × ℤ)) :
    Except String (List (String × ℤ)) :=
  if duct.perimetro_mm > 0 ∧ duct.cantidad > 0 then
    if duct.perimetro_mm ≤ 1270 then
      .ok (nozzle_counts_add counts "439839" duct.cantidad)
    else if duct.perimetro_mm ≤ 2540 then
      .ok (nozzle_counts_add counts "439840" duct.cantidad)
    else .error duct_range_error
  else .ok counts

/-- Step 4 of `design_r102_system` (lines 334-340): one 1N plenum nozzle
(`"439838"`) per started 3 m of hood, plus one for a V-bank filter. -/
def hood_nozzle_step (hood : Hood) (counts : List (String × ℤ)) :
    List (String × ℤ) :=
  let hood_length_m : ℚ := hood.largo_mm / 1000
  let base : ℤ := max 1 ⌈hood_length_m / 3⌉
  let num_hood_nozzles : ℤ := if hood.filtro = .V_BANK then base + 1 else base
  nozzle_counts_add counts "439838" num_hood_nozzles

/-- Error message of step 5 (line 347); the f-string interpolates the nozzle
code, which we keep. -/
def flow_unknown_error (code : String) : String :=
  "No hay número de caudal definido para boquilla " ++ code

/-- The loop of step 5 (lines 343-348) with explicit accumulator. -/
def compute_total_flow_aux : List (String × ℤ) → ℚ → Except String ℚ
  | [], acc => .ok acc
  | (code, qty) :: rest, acc =>
    match NOZZLE_FLOW_NUMBER code with
    | none => .error (flow_unknown_error code)
    | some flow => compute_total_flow_aux rest (acc + flow * (qty : ℚ))

/-- Step 5 of `design_r102_system` (lines 342-348): total flow number. -/
def compute_total_flow (counts : List (String × ℤ)) : Except String ℚ :=
  compute_total_flow_aux counts 0

/-- Warning text of validation (a), lines 281-285; numeric interpolation
dropped, appliance name kept. -/
def warn_nozzle_height (app : Appliance) : String :=
  "Altura de boquilla fuera de rango razonable para '" ++ app.nombre ++ "'."

/-- Warning text of validation (b), lines 289-293; numeric interpolation
dropped, appliance name kept. -/
def warn_clearance (app : Appliance) : String :=
  "Distancia campana-equipo para '" ++ app.nombre ++ "' es atípica (revisar en terreno)."

/-- Warning text of validation (c), lines 296-301; numeric interpolation
dropped, appliance name kept. -/
def warn_outside_hood (app : Appliance) : String :=
  "El equipo '" ++ app.nombre ++ "' queda parcial o totalmente fuera de la campana."

/-- Step 1 of `design_r102_system` for one appliance (lines 279-301): the
three advisory checks, in source order, each appending at most one warning. -/
def appliance_validation_warnings (hood : Hood) (app : Appliance) : List String :=
  (if ¬ (800 ≤ app.altura_boquilla_sobre_superficie_mm ∧
         app.altura_boquilla_sobre_superficie_mm ≤ 1500)
   then [warn_nozzle_height app] else [])
  ++ (let clearance := hood.altura_suelo_mm - app.altura_superficie_mm
      if clearance < 400 ∨ clearance > 1500 then [warn_clearance app] else [])
  ++ (let fin_equipo := app.pos_inicio_mm + app.ancho_mm
      if app.pos_inicio_mm < 0 ∨ fin_equipo > hood.largo_mm
      then [warn_outside_hood app] else [])

/-- Step 1 of `design_r102_system` (lines 278-301): the advisory warnings of
all appliances, in appliance order. -/
def validation_warnings (hood : Hood) (apps : List Appliance) : List String :=
  apps.foldl (fun ws app => ws ++ appliance_validation_warnings hood app) []

/-- The nozzle part of BOM assembly, step 7 (lines 354-355): one
`add_bom_item` call per accumulated nozzle code, in dictionary order. -/
def add_nozzle_items : List BOMItem → List (String × ℤ) → Except String (List BOMItem)
  | bom, [] => .ok bom
  | bom, (code, qty) :: rest =>
    match add_bom_item bom code qty with
    | .error e => .error e
    | .ok bom2 => add_nozzle_items bom2 rest

/-- Step 8, 1.5-gal part (lines 358-360): Python's `if cyl_cfg.num_cylinders_15:`
is integer truthiness, i.e. `≠ 0`; cylinder `"429864"` and agent `"79694"` are
added together, 1:1 with the cylinder count. -/
def add_cylinder_items_15 (bom : List BOMItem) (cfg : CylinderConfig) :
    Except String (List BOMItem) :=
  if cfg.num_cylinders_15 ≠ 0 then
    match add_bom_item bom "429864" cfg.num_cylinders_15 with
    | .error e => .error e
    | .ok bom2 => add_bom_item bom2 "79694" cfg.num_cylinders_15
  else .ok bom

/-- Step 8, 3.0-gal part (lines 362-364): cylinder `"429862"` and agent
`"79372"`, guarded by integer truthiness of `num_cylinders_30`. -/
def add_cylinder_items_30 (bom : List BOMItem) (cfg : CylinderConfig) :
    Except String (List BOMItem) :=
  if cfg.num_cylinders_30 ≠ 0 then
    match add_bom_item bom "429862" cfg.num_cylinders_30 with
    | .error e => .error e
    | .ok bom2 => add_bom_item bom2 "79372" cfg.num_cylinders_30
  else .ok bom

/-- Steps 7-11 of `design_r102_system` (lines 353-375): nozzles, cylinders
with agent, the cartridge, the optional assembly service, the optional
Class-K extinguishers. -/
def assemble_bom (incluir_servicio_montaje incluir_extintor_k : Bool)
    (cantidad_extintores_k : ℤ) (nozzle_counts : List (String × ℤ))
    (cyl_cfg : CylinderConfig) : Except String (List BOMItem) :=
  match add_nozzle_items [] nozzle_counts with
  | .error e => .error e
  | .ok bom1 =>
  match add_cylinder_items_15 bom1 cyl_cfg with
  | .error e => .error e
  | .ok bom2 =>
  match add_cylinder_items_30 bom2 cyl_cfg with
  | .error e => .error e
  | .ok bom3 =>
  match add_bom_item bom3 cyl_cfg.cartridge_code 1 with
  | .error e => .error e
  | .ok bom4 =>
  match (if incluir_servicio_montaje then add_bom_item bom4 "SERV-MONT-R102" 1
         else .ok bom4) with
  | .error e => .error e
  | .ok bom5 =>
    if incluir_extintor_k ∧ cantidad_extintores_k > 0 then
      add_bom_item bom5 "KEXT-6L" cantidad_extintores_k
    else .ok bom5

/-- Source `sum(item.part.unit_price * item.quantity for item in bom)` (line 378). -/
def bom_subtotal (bom : List BOMItem) : ℚ :=
  bom.foldl (fun acc item => acc + item.part.unit_price * (item.quantity : ℚ)) 0

/-- Python's built-in `round(x, 0)`: round to the nearest integer, ties to the
even integer (banker's rounding), as used on line 379 and line 435. -/
def python_round (q : ℚ) : ℚ :=
  let f : ℤ := ⌊q⌋
  let r : ℚ := q - f
  if r < 1 / 2 then (f : ℚ)
  else if 1 / 2 < r then ((f + 1 : ℤ) : ℚ)
  else if f % 2 = 0 then (f : ℚ) else ((f + 1 : ℤ) : ℚ)

/-- Steps 5-12 of `design_r102_system` (lines 342-397), everything after the
nozzle-count accumulation: total flow, cylinder selection, BOM assembly and
the quote, packaged into the `DesignOutput` together with the already
computed warnings. -/
def design_finalize (iva_rate : ℚ) (warnings : List String) (nombre_area : String)
    (incluir_servicio_montaje incluir_extintor_k : Bool) (cantidad_extintores_k : ℤ)
    (nozzle_counts : List (String × ℤ)) : Except String DesignOutput :=
  match compute_total_flow nozzle_counts with
  | .error e => .error e
  | .ok total_flow =>
  match select_cylinders_and_cartridge total_flow with
  | .error e => .error e
  | .ok cyl_cfg =>
  match assemble_bom incluir_servicio_montaje incluir_extintor_k
      cantidad_extintores_k nozzle_counts cyl_cfg with
  | .error e => .error e
  | .ok bom =>
    let subtotal := bom_subtotal bom
    let iva_amount := python_round (subtotal * iva_rate)
    let total := subtotal + iva_amount
    .ok { quote := { bom := bom, subtotal := subtotal, iva_rate := iva_rate,
                     iva_amount := iva_amount, total := total },
          total_flow_number := total_flow,
          nozzle_breakdown := nozzle_counts,
          cylinder_config := cyl_cfg,
          warnings := warnings,
          nombre_area := nombre_area }

/-- Source `design_r102_system` (lines 267-397): warnings (step 1), appliance-zone
nozzles (step 2), duct nozzles (step 3, the first point that can fail), hood
nozzles (step 4), then `design_finalize` (steps 5-12). -/
def design_r102_system (design_input : DesignInput) (iva_rate : ℚ) :
    Except String DesignOutput :=
  let warnings := validation_warnings design_input.hood design_input.appliances
  match duct_nozzle_step design_input.duct (appliance_zone_nozzles design_input) with
  | .error e => .error e
  | .ok counts1 =>
    design_finalize iva_rate warnings design_input.nombre_area
      design_input.incluir_servicio_montaje design_input.incluir_extintor_k
      design_input.cantidad_extintores_k (hood_nozzle_step design_input.hood counts1)

/-- Source `@dataclass ProjectInput` (lines 404-409). -/
structure ProjectInput where
  nombre_proyecto : String
  nombre_cliente : String
  hazard_areas : List DesignInput
  iva_rate : ℚ
deriving DecidableEq

/-- Source `@dataclass ProjectOutput` (lines 412-417). -/
structure ProjectOutput where
  nombre_proyecto : String
  nombre_cliente : String
  areas : List DesignOutput
  quote_global : QuoteResult
deriving DecidableEq

/-- The per-area loop of `design_project` (lines 427-430); the first failing
area aborts the whole project computation. -/
def design_project_areas : List DesignInput → ℚ → Except String (List DesignOutput)
  | [], _ => .ok []
  | area :: rest, iva_rate =>
    match design_r102_system area iva_rate with
    | .error e => .error e
    | .ok out =>
      match design_project_areas rest iva_rate with
      | .error e => .error e
      | .ok outs => .ok (out :: outs)

/-- Source `design_project` (lines 420-451): all hazard areas, the merged global BOM
and the global quote. -/
def design_project (project_input : ProjectInput) : Except String ProjectOutput :=
  match design_project_areas project_input.hazard_areas project_input.iva_rate with
  | .error e => .error e
  | .ok area_results =>
    let bom_global := merge_boms (area_results.map (fun r => r.quote.bom))
    let subtotal := bom_subtotal bom_global
    let iva_amount := python_round (subtotal * project_input.iva_rate)
    let total := subtotal + iva_amount
    .ok { nombre_proyecto := project_input.nombre_proyecto,
          nombre_cliente := project_input.nombre_cliente,
          areas := area_results,
          quote_global := { bom := bom_global, subtotal := subtotal,
                            iva_rate := project_input.iva_rate,
                            iva_amount := iva_amount, total := total } }


/-! ## Concrete inputs used by the scenario claims and witnesses -/

/-- Catalog lookup with a dummy default, for writing concrete expected BOMs. -/
def part_of (code : String) : Part := (PART_CATALOG code).getD ⟨"", "", 0, ""⟩

/-- Scenario A fryer: 660×711 mm, 2 vats, start 200 mm (spec §8; also the
`demo()` input, lines 469-478). -/
def scenario_a_fryer : Appliance :=
  ⟨.FRYER, "Freidora doble", 660, 711, 900, 1100, 200, 2⟩

/-- Scenario A griddle: 900×600 mm, start 1000 mm (spec §8; `demo()` lines
479-487). -/
def scenario_a_griddle : Appliance :=
  ⟨.GRIDDLE, "Plancha", 900, 600, 900, 1100, 1000, 1⟩

/-- Scenario A hazard-area input: hood 3000 mm with simple filter, one duct of
perimeter 1200 mm, the fryer and the griddle, appliance-specific mode,
assembly service and one Class-K extinguisher (spec §8; `demo()` lines
459-499). -/
def scenario_a_input : DesignInput :=
  { hood := ⟨3000, 1200, 2100, .SIMPLE, 1⟩,
    duct := ⟨1200, 1⟩,
    appliances := [scenario_a_fryer, scenario_a_griddle],
    incluir_servicio_montaje := true,
    incluir_extintor_k := true,
    cantidad_extintores_k := 1,
    design_mode := .APPLIANCE_SPECIFIC,
    nombre_area := "Campana 1" }

/-- A 900×600 mm griddle placed at start −100 mm, so that exactly the
outside-the-hood advisory warning fires. -/
def witness_griddle : Appliance :=
  ⟨.GRIDDLE, "Plancha", 900, 600, 900, 1100, -100, 1⟩

/-- A hazard area on which `design_r102_system` succeeds: one griddle
(2 nozzles of flow 2), one small duct (flow 1), one plenum nozzle (flow 1),
total flow 6. -/
def witness_input : DesignInput :=
  { hood := ⟨3000, 1200, 2100, .SIMPLE, 1⟩,
    duct := ⟨1200, 1⟩,
    appliances := [witness_griddle],
    incluir_servicio_montaje := true,
    incluir_extintor_k := false,
    cantidad_extintores_k := 1,
    design_mode := .APPLIANCE_SPECIFIC,
    nombre_area := "Campana 1" }

/-- The exact `DesignOutput` that the embedded pipeline produces on
`witness_input` with tax rate 0.19. -/
def witness_output : DesignOutput :=
  { quote := { bom := [⟨part_of "439845", 2⟩, ⟨part_of "439839", 1⟩,
                       ⟨part_of "439838", 1⟩, ⟨part_of "429862", 1⟩,
                       ⟨part_of "79372", 1⟩, ⟨part_of "423435", 1⟩,
                       ⟨part_of "SERV-MONT-R102", 1⟩],
               subtotal := 1300000, iva_rate := 19/100, iva_amount := 247000,
               total := 1547000 },
    total_flow_number := 6,
    nozzle_breakdown := [("439845", 2), ("439839", 1), ("439838", 1)],
    cylinder_config := ⟨0, 1, "423435"⟩,
    warnings := [warn_outside_hood witness_griddle],
    nombre_area := "Campana 1" }

/-- The same appliance as `witness_griddle` but moved to start 1000 mm: it
differs only in a field that the validation pass alone reads. -/
def witness_griddle_moved : Appliance :=
  ⟨.GRIDDLE, "Plancha", 900, 600, 900, 1100, 1000, 1⟩

/-- Scenario C input: duct perimeter 3000 mm (spec §8). -/
def scenario_c_input : DesignInput :=
  { witness_input with duct := ⟨3000, 1⟩ }

/-- One assembly-service line item of quantity 1. -/
def serv_item : BOMItem := ⟨part_of "SERV-MONT-R102", 1⟩

/-- One dual-cylinder cartridge line item of quantity 1. -/
def cart_item : BOMItem := ⟨part_of "423493", 1⟩

/-- A fryer of width 0 mm: a degenerate appliance on which the fryer rule
returns a nozzle quantity of 0. -/
def c8_zero_fryer : Appliance :=
  ⟨.FRYER, "Freidora", 0, 711, 900, 1100, 0, 2⟩

/-! ## Helper definitions for the claim statements -/

/-- Total quantity carried by a part code in a BOM (summing duplicates, of
which a merged BOM has none). -/
def bom_qty : List BOMItem → String → ℤ
  | [], _ => 0
  | item :: rest, code =>
    (if item.part.code = code then item.quantity else 0) + bom_qty rest code

/-- The part codes of a BOM, in order. -/
def codes_of (bom : List BOMItem) : List String :=
  bom.map (fun item => item.part.code)

/-- Two appliances that agree on every field the nozzle rules read (type,
width, depth, vat count); they may differ in name, heights and position,
which only the validation pass and the warning texts use. -/
def same_design_fields (a b : Appliance) : Prop :=
  a.tipo = b.tipo ∧ a.ancho_mm = b.ancho_mm ∧ a.fondo_mm = b.fondo_mm ∧
    a.num_vats = b.num_vats

/-- Two pipeline results that agree except possibly in the warning list:
same error, or same quote, flow number, nozzle breakdown, cylinder
configuration and area name. -/
def design_modulo_warnings :
    Except String DesignOutput → Except String DesignOutput → Prop
  | .error e1, .error e2 => e1 = e2
  | .ok o1, .ok o2 =>
    o1.quote = o2.quote ∧ o1.total_flow_number = o2.total_flow_number ∧
      o1.nozzle_breakdown = o2.nozzle_breakdown ∧
      o1.cylinder_config = o2.cylinder_config ∧ o1.nombre_area = o2.nombre_area
  | _, _ => False


/-! ## Helper lemmas -/

theorem bom_subtotal_aux (l : List BOMItem) (a : ℚ) :
    l.foldl (fun acc item => acc + item.part.unit_price * (item.quantity : ℚ)) a =
      a + (l.map (fun item => item.part.unit_price * (item.quantity : ℚ))).sum := by
  induction l generalizing a with
  | nil => simp
  | cons item rest ih => simp [ih, add_assoc]

theorem bom_subtotal_eq_sum (l : List BOMItem) :
    bom_subtotal l =
      (l.map (fun item => item.part.unit_price * (item.quantity : ℚ))).sum := by
  simpa [bom_subtotal] using bom_subtotal_aux l 0

theorem python_round_zero : python_round 0 = 0 := by
  norm_num [python_round]

/-- Destructor for a successful `design_finalize`: every field of the output
is the one built on lines 342-397 of the source. -/
theorem design_finalize_ok {iva_rate : ℚ} {w : List String} {n : String}
    {s e : Bool} {k : ℤ} {counts : List (String × ℤ)} {out : DesignOutput}
    (h : design_finalize iva_rate w n s e k counts = .ok out) :
    compute_total_flow counts = .ok out.total_flow_number ∧
    select_cylinders_and_cartridge out.total_flow_number = .ok out.cylinder_config ∧
    assemble_bom s e k counts out.cylinder_config = .ok out.quote.bom ∧
    out.quote.subtotal = bom_subtotal out.quote.bom ∧
    out.quote.iva_rate = iva_rate ∧
    out.quote.iva_amount = python_round (out.quote.subtotal * iva_rate) ∧
    out.quote.total = out.quote.subtotal + out.quote.iva_amount ∧
    out.nozzle_breakdown = counts ∧
    out.warnings = w ∧
    out.nombre_area = n := by
  unfold design_finalize at h
  split at h
  · exact absurd h (by simp)
  next total_flow hflow =>
    split at h
    · exact absurd h (by simp)
    next cyl_cfg hcyl =>
      split at h
      · exact absurd h (by simp)
      next bom hbom =>
        simp only [Except.ok.injEq] at h
        subst h
        simp_all

/-- Destructor for a successful `design_r102_system`: the duct step succeeded
and `design_finalize` ran on the accumulated counts. -/
theorem design_ok_destruct {inp : DesignInput} {iva_rate : ℚ} {out : DesignOutput}
    (h : design_r102_system inp iva_rate = .ok out) :
    ∃ counts1,
      duct_nozzle_step inp.duct (appliance_zone_nozzles inp) = .ok counts1 ∧
      design_finalize iva_rate (validation_warnings inp.hood inp.appliances)
        inp.nombre_area inp.incluir_servicio_montaje inp.incluir_extintor_k
        inp.cantidad_extintores_k (hood_nozzle_step inp.hood counts1) = .ok out := by
  unfold design_r102_system at h
  split at h
  · exact absurd h (by simp)
  next counts1 hduct => exact ⟨counts1, hduct, h⟩

theorem duct_step_skip {duct : Duct} (counts : List (String × ℤ))
    (h : duct.perimetro_mm ≤ 0 ∨ duct.cantidad ≤ 0) :
    duct_nozzle_step duct counts = .ok counts := by
  unfold duct_nozzle_step
  rw [if_neg]
  rintro ⟨hp, hc⟩
  rcases h with h | h <;> linarith

theorem duct_step_small {duct : Duct} (counts : List (String × ℤ))
    (hp : 0 < duct.perimetro_mm) (hc : 0 < duct.cantidad)
    (hle : duct.perimetro_mm ≤ 1270) :
    duct_nozzle_step duct counts = .ok (nozzle_counts_add counts "439839" duct.cantidad) := by
  unfold duct_nozzle_step
  rw [if_pos ⟨hp, hc⟩, if_pos hle]

theorem duct_step_large {duct : Duct} (counts : List (String × ℤ))
    (hc : 0 < duct.cantidad) (hgt : 1270 < duct.perimetro_mm)
    (hle : duct.perimetro_mm ≤ 2540) :
    duct_nozzle_step duct counts = .ok (nozzle_counts_add counts "439840" duct.cantidad) := by
  unfold duct_nozzle_step
  rw [if_pos ⟨by linarith, hc⟩, if_neg (by linarith), if_pos hle]

theorem duct_step_error {duct : Duct} (counts : List (String × ℤ))
    (hc : 0 < duct.cantidad) (hgt : 2540 < duct.perimetro_mm) :
    duct_nozzle_step duct counts = .error duct_range_error := by
  unfold duct_nozzle_step
  rw [if_pos ⟨by linarith, hc⟩, if_neg (by linarith), if_neg (by linarith)]

theorem design_duct_error {inp : DesignInput} (iva_rate : ℚ)
    (hc : 0 < inp.duct.cantidad) (hgt : 2540 < inp.duct.perimetro_mm) :
    design_r102_system inp iva_rate = .error duct_range_error := by
  unfold design_r102_system
  rw [duct_step_error _ hc hgt]


theorem codes_merge_bom_item (merged : List BOMItem) (item : BOMItem) :
    codes_of (merge_bom_item merged item) =
      if item.part.code ∈ codes_of merged then codes_of merged
      else codes_of merged ++ [item.part.code] := by
  induction merged with
  | nil => simp [merge_bom_item, codes_of]
  | cons entry rest ih =>
    by_cases h : entry.part.code = item.part.code
    · simp [merge_bom_item, codes_of, h]
    · have hne : item.part.code ≠ entry.part.code := fun hx => h hx.symm
      simp only [merge_bom_item, if_neg h, codes_of, List.map_cons, List.mem_cons]
      rw [codes_of] at ih
      rw [ih]
      by_cases hmem : item.part.code ∈ List.map (fun it => it.part.code) rest <;>
        simp [codes_of, hmem, hne]

theorem nodup_merge_bom_item {merged : List BOMItem} (item : BOMItem)
    (h : (codes_of merged).Nodup) :
    (codes_of (merge_bom_item merged item)).Nodup := by
  rw [codes_merge_bom_item]
  split
  · exact h
  next hmem =>
    rw [List.nodup_append]
    exact ⟨h, List.nodup_singleton _, by simpa [List.disjoint_singleton] using hmem⟩

theorem nodup_fold_merge (bom : List BOMItem) :
    ∀ acc : List BOMItem, (codes_of acc).Nodup →
      (codes_of (bom.foldl merge_bom_item acc)).Nodup := by
  induction bom with
  | nil => exact fun acc h => h
  | cons item rest ih =>
    intro acc h
    exact ih _ (nodup_merge_bom_item item h)

theorem nodup_merge_boms (boms : List (List BOMItem)) :
    (codes_of (merge_boms boms)).Nodup := by
  have main : ∀ (bs : List (List BOMItem)) (acc : List BOMItem),
      (codes_of acc).Nodup →
      (codes_of (bs.foldl (fun acc bom => bom.foldl merge_bom_item acc) acc)).Nodup := by
    intro bs
    induction bs with
    | nil => exact fun acc h => h
    | cons bom rest ih =>
      intro acc h
      exact ih _ (nodup_fold_merge bom acc h)
  simpa [merge_boms] using main boms [] (by simp [codes_of])

theorem bom_qty_merge_bom_item (merged : List BOMItem) (item : BOMItem)
    (code : String) :
    bom_qty (merge_bom_item merged item) code =
      bom_qty merged code + (if item.part.code = code then item.quantity else 0) := by
  induction merged with
  | nil => simp [merge_bom_item, bom_qty]
  | cons entry rest ih =>
    by_cases h : entry.part.code = item.part.code
    · simp only [merge_bom_item, if_pos h, bom_qty]
      by_cases hc : entry.part.code = code
      · have hic : item.part.code = code := h.symm.trans hc
        simp only [hc, if_pos rfl]
        ring_nf
        simp [hic]
        ring
      · have hic : item.part.code ≠ code := fun hx => hc (h.trans hx)
        simp [hc, hic]
    · simp only [merge_bom_item, if_neg h, bom_qty, ih]
      ring

theorem bom_qty_fold_merge (bom : List BOMItem) :
    ∀ (acc : List BOMItem) (code : String),
      bom_qty (bom.foldl merge_bom_item acc) code =
        bom_qty acc code + bom_qty bom code := by
  induction bom with
  | nil => simp [bom_qty]
  | cons item rest ih =>
    intro acc code
    simp only [List.foldl_cons, ih, bom_qty_merge_bom_item, bom_qty]
    ring

theorem bom_qty_merge_boms (boms : List (List BOMItem)) (code : String) :
    bom_qty (merge_boms boms) code =
      (boms.map (fun bom => bom_qty bom code)).sum := by
  have main : ∀ (bs : List (List BOMItem)) (acc : List BOMItem),
      bom_qty (bs.foldl (fun acc bom => bom.foldl merge_bom_item acc) acc) code =
        bom_qty acc code + (bs.map (fun bom => bom_qty bom code)).sum := by
    intro bs
    induction bs with
    | nil => simp
    | cons bom rest ih =>
      intro acc
      simp only [List.foldl_cons, ih, bom_qty_fold_merge, List.map_cons, List.sum_cons]
      ring
  simpa [merge_boms, bom_qty] using main boms []


theorem appliance_nozzles_congr {a b : Appliance} (h : same_design_fields a b) :
    appliance_nozzles a = appliance_nozzles b := by
  obtain ⟨ht, hw, hf, hv⟩ := h
  unfold appliance_nozzles
  rw [ht]
  cases hb : b.tipo <;>
    simp [design_fryer_nozzles, design_griddle_nozzles, design_range_nozzles,
      hw, hf, hv, hb, ht]

theorem zone_fold_congr {apps apps' : List Appliance}
    (h : List.Forall₂ same_design_fields apps apps') :
    ∀ acc : List (String × ℤ),
      apps.foldl (fun counts app => accumulate_nozzles counts (appliance_nozzles app)) acc =
        apps'.foldl (fun counts app => accumulate_nozzles counts (appliance_nozzles app)) acc := by
  induction h with
  | nil => exact fun _ => rfl
  | cons hab _ ih =>
    intro acc
    simp only [List.foldl_cons, appliance_nozzles_congr hab, ih]

theorem appliance_zone_nozzles_congr (inp : DesignInput) (suelo' : ℚ)
    {apps' : List Appliance}
    (h : List.Forall₂ same_design_fields inp.appliances apps') :
    appliance_zone_nozzles
        { inp with hood := { inp.hood with altura_suelo_mm := suelo' },
                   appliances := apps' } =
      appliance_zone_nozzles inp := by
  unfold appliance_zone_nozzles
  cases hm : inp.design_mode with
  | APPLIANCE_SPECIFIC => simpa [hm] using (zone_fold_congr h []).symm
  | OVERLAPPING => simp [hm]

theorem design_finalize_modulo (iva_rate : ℚ) (w w' : List String) (n : String)
    (s e : Bool) (k : ℤ) (counts : List (String × ℤ)) :
    design_modulo_warnings (design_finalize iva_rate w n s e k counts)
      (design_finalize iva_rate w' n s e k counts) := by
  unfold design_finalize
  cases hf : compute_total_flow counts with
  | error msg => simp [design_modulo_warnings]
  | ok total_flow =>
    cases hc : select_cylinders_and_cartridge total_flow with
    | error msg => simp only [hc]; simp [design_modulo_warnings]
    | ok cyl_cfg =>
      simp only [hc]
      cases hb : assemble_bom s e k counts cyl_cfg with
      | error msg => simp only [hb]; simp [design_modulo_warnings]
      | ok bom => simp only [hb]; simp [design_modulo_warnings]

theorem hood_step_suelo (hood : Hood) (suelo' : ℚ) (counts : List (String × ℤ)) :
    hood_nozzle_step { hood with altura_suelo_mm := suelo' } counts =
      hood_nozzle_step hood counts := rfl

theorem flow_number_values {code : String} {flow : ℚ}
    (h : NOZZLE_FLOW_NUMBER code = some flow) :
    flow = 1 ∨ flow = 2 ∨ flow = 3 := by
  unfold NOZZLE_FLOW_NUMBER at h
  split_ifs at h <;> simp_all

theorem compute_flow_aux_int (counts : List (String × ℤ)) :
    ∀ (acc total : ℚ), compute_total_flow_aux counts acc = .ok total →
      (∃ m : ℤ, acc = (m : ℚ)) → ∃ n : ℤ, total = (n : ℚ) := by
  induction counts with
  | nil =>
    intro acc total h hm
    simp only [compute_total_flow_aux, Except.ok.injEq] at h
    exact h ▸ hm
  | cons p rest ih =>
    intro acc total h hm
    obtain ⟨code, qty⟩ := p
    simp only [compute_total_flow_aux] at h
    cases hf : NOZZLE_FLOW_NUMBER code with
    | none => rw [hf] at h; exact absurd h (by simp)
    | some flow =>
      rw [hf] at h
      obtain ⟨m, hm⟩ := hm
      rcases flow_number_values hf with h1 | h1 | h1
      · subst h1; exact ih _ total h ⟨m + 1 * qty, by push_cast [hm]; ring⟩
      · subst h1; exact ih _ total h ⟨m + 2 * qty, by push_cast [hm]; ring⟩
      · subst h1; exact ih _ total h ⟨m + 3 * qty, by push_cast [hm]; ring⟩

theorem compute_flow_int {counts : List (String × ℤ)} {total : ℚ}
    (h : compute_total_flow counts = .ok total) : ∃ n : ℤ, total = (n : ℚ) :=
  compute_flow_aux_int counts 0 total h ⟨0, by norm_num⟩


/-! ## Claim theorems -/

unseal Rat.mul Rat.inv Rat.add Rat.sub in
/-- C1 (counterexample): on the Scenario A input the pipeline does not
succeed at all — it raises the cylinder-selection range error — so it cannot
produce 4 fryer nozzles, flow 18 and a 2-large-cylinder configuration as the
claim states. -/
theorem C1_scenario_a_counterexample :
    design_r102_system scenario_a_input (19 / 100) = .error cylinder_range_error := by
  decide

unseal Rat.mul Rat.inv Rat.add Rat.sub in
/-- C1 (amended): on the Scenario A input the fryer rule yields
`ceil(0.93852/0.239) = 4` base nozzles, doubled to 8 because 0.711 m exceeds
0.644 m; with the griddle's 2, the duct's 1 and the plenum's 1 the total flow
number is `8·3 + 2·2 + 1 + 1 = 30`, which is outside the supported range
`[1, 22]`, so `design_r102_system` fails with the fatal cylinder range error
instead of succeeding. -/
theorem C1_scenario_a_amended :
    design_fryer_nozzles scenario_a_fryer = [("439841", 8)] ∧
    design_griddle_nozzles scenario_a_griddle = [("439845", 2)] ∧
    appliance_zone_nozzles scenario_a_input = [("439841", 8), ("439845", 2)] ∧
    duct_nozzle_step scenario_a_input.duct [("439841", 8), ("439845", 2)] =
      .ok [("439841", 8), ("439845", 2), ("439839", 1)] ∧
    hood_nozzle_step scenario_a_input.hood [("439841", 8), ("439845", 2), ("439839", 1)] =
      [("439841", 8), ("439845", 2), ("439839", 1), ("439838", 1)] ∧
    compute_total_flow [("439841", 8), ("439845", 2), ("439839", 1), ("439838", 1)] =
      .ok 30 ∧
    select_cylinders_and_cartridge 30 = .error cylinder_range_error ∧
    design_r102_system scenario_a_input (19 / 100) = .error cylinder_range_error := by
  refine ⟨?_, ?_, ?_, ?_, ?_, ?_, ?_, ?_⟩ <;> decide

unseal Rat.mul Rat.inv Rat.add Rat.sub in
/-- C2 (counterexample): the flow number 5.5 lies inside `[1, 22]` but falls
in the gap between the `[1, 5]` and `[6, 11]` branches, so
`select_cylinders_and_cartridge` raises the fatal range error for a value
inside `[1, 22]`, contradicting the claim that it fails exactly outside
`[1, 22]`. -/
theorem C2_gap_counterexample :
    (1 ≤ (11 / 2 : ℚ) ∧ (11 / 2 : ℚ) ≤ 22) ∧
    select_cylinders_and_cartridge (11 / 2) = .error cylinder_range_error := by
  refine ⟨?_, ?_⟩ <;> decide

/-- C2 (amended): `select_cylinders_and_cartridge` returns exactly one
configuration according to the range table — `[1,5]` → 1 small cylinder with
the small cartridge, `[6,11]` → 1 large cylinder with the large cartridge (so
flow 11 yields the large-only configuration), `(11,16]` → 1 small + 1 large
with the dual cartridge, `(16,22]` → 2 large with the dual cartridge — and it
raises the fatal range error exactly for flow numbers outside
`[1,5] ∪ [6,22]`; in particular it also fails for values strictly between 5
and 6, which lie inside `[1, 22]`. -/
theorem C2_cylinder_selection (q : ℚ) :
    (1 ≤ q ∧ q ≤ 5 → select_cylinders_and_cartridge q = .ok ⟨1, 0, "423429"⟩) ∧
    (6 ≤ q ∧ q ≤ 11 → select_cylinders_and_cartridge q = .ok ⟨0, 1, "423435"⟩) ∧
    (11 < q ∧ q ≤ 16 → select_cylinders_and_cartridge q = .ok ⟨1, 1, "423493"⟩) ∧
    (16 < q ∧ q ≤ 22 → select_cylinders_and_cartridge q = .ok ⟨0, 2, "423493"⟩) ∧
    (q < 1 ∨ (5 < q ∧ q < 6) ∨ 22 < q →
      select_cylinders_and_cartridge q = .error cylinder_range_error) := by
  refine ⟨fun h => ?_, fun h => ?_, fun h => ?_, fun h => ?_, fun h => ?_⟩ <;>
    unfold select_cylinders_and_cartridge
  · rw [if_pos h]
  · rw [if_neg (fun hx => by rcases hx with ⟨hxa, hxb⟩; linarith [h.1]), if_pos h]
  · rw [if_neg (fun hx => by rcases hx with ⟨hxa, hxb⟩; linarith [h.1]),
      if_neg (fun hx => by rcases hx with ⟨hxa, hxb⟩; linarith [h.1]), if_pos h]
  · rw [if_neg (fun hx => by rcases hx with ⟨hxa, hxb⟩; linarith [h.1]),
      if_neg (fun hx => by rcases hx with ⟨hxa, hxb⟩; linarith [h.1]),
      if_neg (fun hx => by rcases hx with ⟨hxa, hxb⟩; linarith [h.1]), if_pos h]
  · rcases h with h | ⟨h5, h6⟩ | h <;>
      rw [if_neg (fun hx => by rcases hx with ⟨hxa, hxb⟩; linarith),
        if_neg (fun hx => by rcases hx with ⟨hxa, hxb⟩; linarith),
        if_neg (fun hx => by rcases hx with ⟨hxa, hxb⟩; linarith),
        if_neg (fun hx => by rcases hx with ⟨hxa, hxb⟩; linarith)]

theorem C2_cylinder_selection_witness :
    select_cylinders_and_cartridge 11 = .ok ⟨0, 1, "423435"⟩ ∧
    select_cylinders_and_cartridge 16 = .ok ⟨1, 1, "423493"⟩ ∧
    select_cylinders_and_cartridge 18 = .ok ⟨0, 2, "423493"⟩ :=
  ⟨(C2_cylinder_selection 11).2.1 (by decide),
   (C2_cylinder_selection 16).2.2.1 (by decide),
   (C2_cylinder_selection 18).2.2.2.1 (by decide)⟩

/-- C3: for every appliance, the fryer rule returns the single nozzle type
`"439841"` with count `ceil(width(m) × depth(m) × max(1, vats) / 0.239)`,
exactly doubled when the longer of width and depth exceeds 0.644 m. -/
theorem C3_fryer_rule (app : Appliance) :
    design_fryer_nozzles app =
      [("439841",
        if max (app.ancho_mm / 1000) (app.fondo_mm / 1000) > 644 / 1000 then
          2 * ⌈app.ancho_mm / 1000 * (app.fondo_mm / 1000) *
                ((max 1 app.num_vats : ℤ) : ℚ) / (239 / 1000)⌉
        else
          ⌈app.ancho_mm / 1000 * (app.fondo_mm / 1000) *
              ((max 1 app.num_vats : ℤ) : ℚ) / (239 / 1000)⌉)] := by
  unfold design_fryer_nozzles
  by_cases h : max (app.ancho_mm / 1000) (app.fondo_mm / 1000) > (644 : ℚ) / 1000
  · simp only [if_pos h, Int.mul_comm]
  · simp only [if_neg h]


/-- C4: for every hazard-area computation that succeeds, the quote satisfies
subtotal = Σ(unit price × quantity) over the area BOM, tax amount =
round(subtotal × rate) to the nearest whole currency unit (Python banker's
rounding), total = subtotal + tax amount, and for tax rate 0 the total equals
the subtotal. -/
theorem C4_quote_invariant (inp : DesignInput) (rate : ℚ) (out : DesignOutput)
    (h : design_r102_system inp rate = .ok out) :
    out.quote.subtotal =
      (out.quote.bom.map (fun item => item.part.unit_price * (item.quantity : ℚ))).sum ∧
    out.quote.iva_amount = python_round (out.quote.subtotal * rate) ∧
    out.quote.total = out.quote.subtotal + out.quote.iva_amount ∧
    (rate = 0 → out.quote.total = out.quote.subtotal) := by
  obtain ⟨counts1, hduct, hfin⟩ := design_ok_destruct h
  obtain ⟨hflow, hcyl, hbom, hsub, hrate, hiva, htot, hbrk, hw, hn⟩ :=
    design_finalize_ok hfin
  refine ⟨hsub.trans (bom_subtotal_eq_sum _), hiva, htot, fun h0 => ?_⟩
  rw [htot, hiva, h0, mul_zero, python_round_zero, add_zero]

unseal Rat.mul Rat.inv Rat.add Rat.sub in
theorem C4_quote_invariant_witness :
    witness_output.quote.subtotal =
      (witness_output.quote.bom.map
        (fun item => item.part.unit_price * (item.quantity : ℚ))).sum ∧
    witness_output.quote.iva_amount =
      python_round (witness_output.quote.subtotal * (19 / 100)) ∧
    witness_output.quote.total =
      witness_output.quote.subtotal + witness_output.quote.iva_amount ∧
    ((19 / 100 : ℚ) = 0 →
      witness_output.quote.total = witness_output.quote.subtotal) :=
  C4_quote_invariant witness_input (19 / 100) witness_output (by decide)

/-- C5: `merge_boms` yields at most one line item per part code (the merged
code list has no duplicates), the merged quantity of every code is the sum of
that code's quantities over all input BOMs, the merged quantities are
invariant under permuting the input BOMs, and on Scenario E two areas each
holding one assembly-service item and one dual cartridge merge into a single
assembly-service line of quantity 2 and a single cartridge line of
quantity 2. -/
theorem C5_merge_boms :
    (∀ boms : List (List BOMItem), (codes_of (merge_boms boms)).Nodup) ∧
    (∀ (boms : List (List BOMItem)) (code : String),
      bom_qty (merge_boms boms) code =
        (boms.map (fun bom => bom_qty bom code)).sum) ∧
    (∀ (boms boms' : List (List BOMItem)) (code : String), boms.Perm boms' →
      bom_qty (merge_boms boms) code = bom_qty (merge_boms boms') code) ∧
    merge_boms [[serv_item, cart_item], [serv_item, cart_item]] =
      [⟨part_of "SERV-MONT-R102", 2⟩, ⟨part_of "423493", 2⟩] := by
  refine ⟨nodup_merge_boms, bom_qty_merge_boms, ?_, by decide⟩
  intro boms boms' code hperm
  rw [bom_qty_merge_boms, bom_qty_merge_boms]
  exact (hperm.map (fun bom => bom_qty bom code)).sum_eq

theorem C5_merge_boms_witness :
    bom_qty (merge_boms [[serv_item], [cart_item]]) "423493" =
      bom_qty (merge_boms [[cart_item], [serv_item]]) "423493" :=
  C5_merge_boms.2.2.1 [[serv_item], [cart_item]] [[cart_item], [serv_item]]
    "423493" (List.Perm.swap [cart_item] [serv_item] [])

/-- C6: duct nozzle derivation is skipped (the counts are returned unchanged)
when the perimeter or the duct count is non-positive; otherwise a perimeter
up to 1270 mm adds the small-duct nozzle `"439839"` and a perimeter in
(1270, 2540] adds the large-duct nozzle `"439840"`, each with quantity equal
to the duct count; a perimeter above 2540 mm raises the fatal range error,
and then `design_r102_system` itself fails with that error, producing no
design output. -/
theorem C6_duct_nozzles :
    (∀ (duct : Duct) (counts : List (String × ℤ)),
      duct.perimetro_mm ≤ 0 ∨ duct.cantidad ≤ 0 →
        duct_nozzle_step duct counts = .ok counts) ∧
    (∀ (duct : Duct) (counts : List (String × ℤ)),
      0 < duct.perimetro_mm → 0 < duct.cantidad → duct.perimetro_mm ≤ 1270 →
        duct_nozzle_step duct counts =
          .ok (nozzle_counts_add counts "439839" duct.cantidad)) ∧
    (∀ (duct : Duct) (counts : List (String × ℤ)),
      0 < duct.cantidad → 1270 < duct.perimetro_mm → duct.perimetro_mm ≤ 2540 →
        duct_nozzle_step duct counts =
          .ok (nozzle_counts_add counts "439840" duct.cantidad)) ∧
    (∀ (duct : Duct) (counts : List (String × ℤ)),
      0 < duct.cantidad → 2540 < duct.perimetro_mm →
        duct_nozzle_step duct counts = .error duct_range_error) ∧
    (∀ (inp : DesignInput) (rate : ℚ),
      0 < inp.duct.cantidad → 2540 < inp.duct.perimetro_mm →
        design_r102_system inp rate = .error duct_range_error) :=
  ⟨fun _ c h => duct_step_skip c h,
   fun _ c hp hc hle => duct_step_small c hp hc hle,
   fun _ c hc hgt hle => duct_step_large c hc hgt hle,
   fun _ c hc hgt => duct_step_error c hc hgt,
   fun _ rate hc hgt => design_duct_error rate hc hgt⟩

theorem C6_duct_nozzles_witness :
    duct_nozzle_step ⟨3000, 1⟩ [] = .error duct_range_error ∧
    design_r102_system scenario_c_input (19 / 100) = .error duct_range_error :=
  ⟨C6_duct_nozzles.2.2.2.1 ⟨3000, 1⟩ [] (by decide) (by decide),
   C6_duct_nozzles.2.2.2.2 scenario_c_input (19 / 100) (by decide) (by decide)⟩


/-- C7: the three validation checks only append warning strings — each check
contributes its warning exactly when violated (nozzle height outside
[800, 1500] mm, clearance outside [400, 1500] mm, occupied span outside
[0, hood length]) — every successful run carries exactly those warnings in
its output, and the checks never abort the computation: changing only the
validation-relevant fields (surface height, nozzle height, start position,
hood floor height) never changes whether the pipeline succeeds, nor any
output field other than the warning list. -/
theorem C7_validation_warnings :
    (∀ (inp : DesignInput) (rate : ℚ) (out : DesignOutput),
      design_r102_system inp rate = .ok out →
      out.warnings = validation_warnings inp.hood inp.appliances) ∧
    (∀ (hood : Hood) (app : Appliance),
      appliance_validation_warnings hood app =
        (if app.altura_boquilla_sobre_superficie_mm < 800 ∨
            1500 < app.altura_boquilla_sobre_superficie_mm
         then [warn_nozzle_height app] else []) ++
        (if hood.altura_suelo_mm - app.altura_superficie_mm < 400 ∨
            1500 < hood.altura_suelo_mm - app.altura_superficie_mm
         then [warn_clearance app] else []) ++
        (if app.pos_inicio_mm < 0 ∨
            hood.largo_mm < app.pos_inicio_mm + app.ancho_mm
         then [warn_outside_hood app] else [])) ∧
    (∀ (inp : DesignInput) (rate suelo' : ℚ) (apps' : List Appliance),
      List.Forall₂ same_design_fields inp.appliances apps' →
      design_modulo_warnings (design_r102_system inp rate)
        (design_r102_system
          { inp with hood := { inp.hood with altura_suelo_mm := suelo' },
                     appliances := apps' } rate)) := by
  refine ⟨fun inp rate out h => ?_, fun hood app => ?_, fun inp rate suelo' apps' hf => ?_⟩
  · obtain ⟨c1, hd, hfin⟩ := design_ok_destruct h
    exact (design_finalize_ok hfin).2.2.2.2.2.2.2.2.1
  · simp only [appliance_validation_warnings, not_and_or, not_le]
  · unfold design_r102_system
    dsimp only
    rw [appliance_zone_nozzles_congr inp suelo' hf]
    simp only [hood_step_suelo]
    cases hd : duct_nozzle_step inp.duct (appliance_zone_nozzles inp) with
    | error e => simp only [hd]; simp [design_modulo_warnings]
    | ok c1 =>
      simp only [hd]
      exact design_finalize_modulo rate _ _ inp.nombre_area
        inp.incluir_servicio_montaje inp.incluir_extintor_k
        inp.cantidad_extintores_k (hood_nozzle_step inp.hood c1)

unseal Rat.mul Rat.inv Rat.add Rat.sub in
theorem C7_validation_warnings_witness :
    witness_output.warnings =
      validation_warnings witness_input.hood witness_input.appliances ∧
    design_modulo_warnings (design_r102_system witness_input (19 / 100))
      (design_r102_system
        { witness_input with
            hood := { witness_input.hood with altura_suelo_mm := 2100 },
            appliances := [witness_griddle_moved] } (19 / 100)) :=
  ⟨C7_validation_warnings.1 witness_input (19 / 100) witness_output (by decide),
   C7_validation_warnings.2.2 witness_input (19 / 100) 2100 [witness_griddle_moved]
     (List.Forall₂.cons ⟨rfl, rfl, rfl, rfl⟩ List.Forall₂.nil)⟩

unseal Rat.mul Rat.inv Rat.add Rat.sub in
/-- C8 (counterexample): a fryer of width 0 mm makes the fryer rule return a
nozzle quantity of 0, so the nozzle-rule quantities are not always ≥ 1. -/
theorem C8_zero_width_counterexample :
    design_fryer_nozzles c8_zero_fryer = [("439841", 0)] ∧
    ¬ (∀ p ∈ design_fryer_nozzles c8_zero_fryer, 1 ≤ p.2) := by
  refine ⟨?_, ?_⟩ <;> decide

/-- C8 (amended): for every appliance with positive width and depth, the
fryer and griddle rules return only quantities ≥ 1, and the range rule
returns only quantities ≥ 1 for every appliance. -/
theorem C8_nozzle_quantities (app : Appliance) :
    (0 < app.ancho_mm → 0 < app.fondo_mm →
      ∀ p ∈ design_fryer_nozzles app, 1 ≤ p.2) ∧
    (0 < app.ancho_mm → 0 < app.fondo_mm →
      ∀ p ∈ design_griddle_nozzles app, 1 ≤ p.2) ∧
    (∀ p ∈ design_range_nozzles app, 1 ≤ p.2) := by
  refine ⟨fun hw hf p hp => ?_, fun hw hf p hp => ?_, fun p hp => ?_⟩
  · simp only [design_fryer_nozzles, List.mem_singleton] at hp
    subst hp
    have hv : (1 : ℚ) ≤ ((max 1 app.num_vats : ℤ) : ℚ) := by
      exact_mod_cast le_max_left 1 app.num_vats
    have hceil : 1 ≤ ⌈app.ancho_mm / 1000 * (app.fondo_mm / 1000) *
        ((max 1 app.num_vats : ℤ) : ℚ) / (239 / 1000)⌉ := by
      refine Int.ceil_pos.mpr ?_
      have h1 : 0 < app.ancho_mm / 1000 := by positivity
      have h2 : 0 < app.fondo_mm / 1000 := by positivity
      positivity
    dsimp only
    split
    · omega
    · exact hceil
  · simp only [design_griddle_nozzles, List.mem_singleton] at hp
    subst hp
    have hceil : 1 ≤ ⌈app.ancho_mm / 1000 * (app.fondo_mm / 1000) / (36 / 100)⌉ := by
      refine Int.ceil_pos.mpr ?_
      have h1 : 0 < app.ancho_mm / 1000 := by positivity
      have h2 : 0 < app.fondo_mm / 1000 := by positivity
      positivity
    exact hceil
  · obtain ⟨tipo, nom, an, fo, als, alb, pos, nv⟩ := app
    cases tipo <;>
      simp only [design_range_nozzles, List.mem_singleton, List.not_mem_nil] at hp
    · subst hp; norm_num
    · subst hp; norm_num

unseal Rat.mul Rat.inv Rat.add Rat.sub in
theorem C8_nozzle_quantities_witness :
    ("439841", (8 : ℤ)) ∈ design_fryer_nozzles scenario_a_fryer ∧
    (1 : ℤ) ≤ (("439841", (8 : ℤ)) : String × ℤ).2 :=
  ⟨by decide,
   (C8_nozzle_quantities scenario_a_fryer).1 (by decide) (by decide)
     ("439841", 8) (by decide)⟩

/-- C9: every nozzle flow number in the catalog is 1, 2 or 3, and on every
input on which `design_r102_system` succeeds the total flow number it
accumulates is an integer — fractional totals can never arise from the
pipeline itself. -/
theorem C9_integral_flow :
    (∀ (code : String) (flow : ℚ), NOZZLE_FLOW_NUMBER code = some flow →
      flow = 1 ∨ flow = 2 ∨ flow = 3) ∧
    (∀ (inp : DesignInput) (rate : ℚ) (out : DesignOutput),
      design_r102_system inp rate = .ok out →
      ∃ n : ℤ, out.total_flow_number = (n : ℚ)) := by
  refine ⟨fun code flow h => flow_number_values h, fun inp rate out h => ?_⟩
  obtain ⟨c1, hd, hfin⟩ := design_ok_destruct h
  exact compute_flow_int (design_finalize_ok hfin).1

unseal Rat.mul Rat.inv Rat.add Rat.sub in
theorem C9_integral_flow_witness :
    ∃ n : ℤ, witness_output.total_flow_number = (n : ℚ) :=
  C9_integral_flow.2 witness_input (19 / 100) witness_output (by decide)

/-- C10: `add_bom_item` with a non-positive quantity is a no-op that raises
no error for any part code (the quantity check precedes the catalog lookup),
and the fatal unknown-part-code error occurs exactly for a positive quantity
with a code missing from the catalog. -/
theorem C10_add_bom_item (bom : List BOMItem) (code : String) (qty : ℤ) :
    (qty ≤ 0 → add_bom_item bom code qty = .ok bom) ∧
    (0 < qty → PART_CATALOG code = none →
      add_bom_item bom code qty = .error (unknown_part_error code)) ∧
    (∀ e, add_bom_item bom code qty = .error e →
      0 < qty ∧ PART_CATALOG code = none ∧ e = unknown_part_error code) := by
  refine ⟨fun h => ?_, fun h hnone => ?_, fun e he => ?_⟩
  · unfold add_bom_item
    rw [if_pos h]
  · unfold add_bom_item
    rw [if_neg (by omega), hnone]
  · unfold add_bom_item at he
    by_cases hq : qty ≤ 0
    · rw [if_pos hq] at he
      exact absurd he (by simp)
    · rw [if_neg hq] at he
      cases hc : PART_CATALOG code with
      | none =>
        rw [hc] at he
        simp only [Except.error.injEq] at he
        exact ⟨by omega, rfl, he.symm⟩
      | some part =>
        rw [hc] at he
        exact absurd he (by simp)

theorem C10_add_bom_item_witness :
    add_bom_item [] "NOEXISTE" 0 = .ok [] ∧
    add_bom_item [] "NOEXISTE" 1 = .error (unknown_part_error "NOEXISTE") :=
  ⟨(C10_add_bom_item [] "NOEXISTE" 0).1 (by decide),
   (C10_add_bom_item [] "NOEXISTE" 1).2.1 (by decide) (by decide)⟩

end R102
